import Mathlib

/-!
Shallow embedding of the vary-velocity VST plugin (src/src/lib.rs).

Floating-point values are modelled as rationals (ℚ); machine bytes as ℕ.
The draw from the Gaussian distribution inside add_event is modelled as an
explicit parameter (the sample), so every theorem quantifies over all
possible draws.
-/

namespace VaryVelocity

/-- Scaling constant for the variance control (src/src/lib.rs line 37). -/
def MAX_VARIANCE : ℚ := 25

/-- Scaling constant for the minimum control (src/src/lib.rs line 38). -/
def MAX_MINIMUM : ℚ := 127

/-- The parameter store: two atomic float cells (struct VaryVelocityParameters,
src/src/lib.rs lines 21-24). -/
structure VaryVelocityParameters where
  variance : ℚ
  minimum : ℚ
deriving Repr, DecidableEq

/-- The Default impl (src/src/lib.rs lines 27-34): both cells start at 0.0. -/
def VaryVelocityParameters.defaultParams : VaryVelocityParameters :=
  { variance := 0, minimum := 0 }

/-- A MIDI event as in vst::event::MidiEvent: three data bytes plus
cycle-relative timing and metadata fields, all copied by the struct-update
syntax in add_event. -/
structure MidiEvent where
  data0 : ℕ
  data1 : ℕ
  data2 : ℕ
  deltaFrames : ℤ
  live : Bool
  noteLength : Option ℤ
  noteOffset : Option ℤ
  detune : ℤ
  noteOffVelocity : ℕ
deriving Repr, DecidableEq

/-- An event delivered by the host: either a MIDI event or any other kind
of event (matched by the wildcard arm in process_events). -/
inductive VstEvent where
  | midi (e : MidiEvent)
  | other
deriving Repr, DecidableEq

/-- Truncation toward zero, the semantics of a Rust float-to-integer cast
before saturation. -/
def truncTowardZero (q : ℚ) : ℤ :=
  if 0 ≤ q then ⌊q⌋ else -⌊-q⌋

/-- Rust saturating cast to u8 (`as u8` on a float): truncate toward zero,
then clamp into [0, 255]. -/
def rustCastU8 (q : ℚ) : ℕ :=
  (min 255 (truncTowardZero q)).toNat

/-- The clamping step of add_event (src/src/lib.rs line 62):
`sample.max(minimum).min(127.)` where minimum is the scaled floor. -/
def clampedVelocity (par : VaryVelocityParameters) (s : ℚ) : ℚ :=
  min (max s (par.minimum * MAX_MINIMUM)) 127

/-- The event transformation of add_event (src/src/lib.rs lines 56-68):
the emitted event copies every field of the input, replacing only data[2]
with the clamped, cast sample. `s` models the draw from
Normal(velocity, variance * MAX_VARIANCE). -/
def addEventTransform (par : VaryVelocityParameters) (e : MidiEvent) (s : ℚ) :
    MidiEvent :=
  { e with data2 := rustCastU8 (clampedVelocity par s) }

/-- The mutable plugin state relevant to the event path: the shared
parameters and the pending-event queue (immediate_events). -/
structure PluginState where
  params : VaryVelocityParameters
  immediate_events : List MidiEvent
deriving Repr, DecidableEq

/-- add_event as a state transformer: pushes the transformed event onto the
pending queue (src/src/lib.rs lines 56-68). -/
def addEvent (st : PluginState) (e : MidiEvent) (s : ℚ) : PluginState :=
  { st with immediate_events :=
      st.immediate_events ++ [addEventTransform st.params e s] }

/-- process_events (src/src/lib.rs lines 105-113): each MIDI event is passed
to add_event (consuming one fresh random sample from the stream ss); every
other event is ignored. -/
def processEvents (st : PluginState) : List VstEvent → List ℚ → PluginState
  | [], _ => st
  | VstEvent.midi e :: rest, ss =>
      processEvents (addEvent st e (ss.headD 0)) rest ss.tail
  | VstEvent.other :: rest, ss => processEvents st rest ss

/-- send_midi (src/src/lib.rs lines 70-74): hands the whole pending queue to
the host in one send_events call, then clears it. Returns the batch
delivered to the host together with the successor state. -/
def sendMidi (st : PluginState) : List MidiEvent × PluginState :=
  (st.immediate_events, { st with immediate_events := [] })

/-- One channel of the audio copy loop (src/src/lib.rs lines 117-121):
`input.iter().zip(output)` copies the first min-length samples of the input
channel over the output channel; trailing output samples are untouched. -/
def copyChannel (inp outp : List ℚ) : List ℚ :=
  (List.zip inp outp).map Prod.fst ++ outp.drop inp.length

/-- The audio part of process (src/src/lib.rs lines 116-123): buffer.zip()
pairs input channels with output channels; each pair is copied sample-wise;
output channels beyond the input channel count are untouched. -/
def processAudio (inp outp : List (List ℚ)) : List (List ℚ) :=
  (List.zip inp outp).map (fun p => copyChannel p.1 p.2) ++ outp.drop inp.length

/-- get_parameter (src/src/lib.rs lines 145-151). -/
def get_parameter (p : VaryVelocityParameters) (index : ℤ) : ℚ :=
  if index = 0 then p.variance
  else if index = 1 then p.minimum
  else 0

/-- The clamp constant 0.0000000001 in set_parameter (src/src/lib.rs line 157). -/
def epsilonClamp : ℚ := 1 / 10000000000

/-- set_parameter (src/src/lib.rs lines 154-161): index 0 stores
val.max(epsilon); index 1 stores the raw value; anything else is a no-op. -/
def set_parameter (p : VaryVelocityParameters) (index : ℤ) (val : ℚ) :
    VaryVelocityParameters :=
  if index = 0 then { p with variance := max val epsilonClamp }
  else if index = 1 then { p with minimum := val }
  else p

/-- The value rendered by get_parameter_text, tagged with the format used:
`fixed1 q` models format "{:.1}" applied to q, `plain q` models format "{:}"
applied to q, and `empty` models the empty string. -/
inductive DisplayText where
  | fixed1 (q : ℚ)
  | plain (q : ℚ)
  | empty
deriving Repr, DecidableEq

/-- get_parameter_text (src/src/lib.rs lines 165-171). Note that the source
reads self.variance for BOTH index 0 and index 1. -/
def get_parameter_text (p : VaryVelocityParameters) (index : ℤ) : DisplayText :=
  if index = 0 then DisplayText.fixed1 (p.variance * MAX_VARIANCE)
  else if index = 1 then DisplayText.plain (p.variance * MAX_VARIANCE)
  else DisplayText.empty

/-- get_parameter_name (src/src/lib.rs lines 174-181). -/
def get_parameter_name (index : ℤ) : String :=
  if index = 0 then "Velocity variance"
  else if index = 1 then "Minimum velocity"
  else ""

/-- One host-side call to set_parameter. -/
structure SetOp where
  index : ℤ
  val : ℚ
deriving Repr, DecidableEq

/-- Apply a sequence of set_parameter calls, earliest first. -/
def applyOps (p : VaryVelocityParameters) : List SetOp → VaryVelocityParameters
  | [] => p
  | op :: rest => applyOps (set_parameter p op.index op.val) rest

/-- Reachable parameter-store states: the default state, closed under
arbitrary set_parameter calls. -/
inductive Reachable : VaryVelocityParameters → Prop where
  | init : Reachable VaryVelocityParameters.defaultParams
  | step : ∀ p i v, Reachable p → Reachable (set_parameter p i v)

/-- Modelled from the spec: the constructor of the Gaussian distribution
lives in the external rand_distr crate, not under src/. Per the spec
(section 4.2 edge cases), construction fails exactly when the standard
deviation is non-positive or non-finite; in the rational model this is
sigma ≤ 0. Returns the (mean, sigma) pair on success. -/
def normalNew (mean sigma : ℚ) : Option (ℚ × ℚ) :=
  if 0 < sigma then some (mean, sigma) else none

/-- The list of transformed events a cycle produces: the MIDI sublist of the
inbound batch, each entry transformed with its fresh sample, order preserved;
non-MIDI events contribute nothing. -/
def transformedEvents (par : VaryVelocityParameters) :
    List VstEvent → List ℚ → List MidiEvent
  | [], _ => []
  | VstEvent.midi e :: rest, ss =>
      addEventTransform par e (ss.headD 0) :: transformedEvents par rest ss.tail
  | VstEvent.other :: rest, ss => transformedEvents par rest ss

/-- Number of MIDI events in an inbound batch. -/
def midiCount : List VstEvent → ℕ
  | [] => 0
  | VstEvent.midi _ :: rest => midiCount rest + 1
  | VstEvent.other :: rest => midiCount rest

/-- A concrete MIDI note-on event (channel 1, note 60, velocity 100) used to
instantiate theorems at concrete inputs. -/
def ev0 : MidiEvent :=
  { data0 := 144, data1 := 60, data2 := 100, deltaFrames := 0, live := true,
    noteLength := none, noteOffset := none, detune := 0, noteOffVelocity := 0 }

/-! ## Helper lemmas -/

theorem epsilonClamp_pos : 0 < epsilonClamp := by norm_num [epsilonClamp]

theorem truncTowardZero_of_nonneg (q : ℚ) (h : 0 ≤ q) :
    truncTowardZero q = ⌊q⌋ := if_pos h

theorem truncTowardZero_nonpos (q : ℚ) (h : q < 0) : truncTowardZero q ≤ 0 := by
  rw [truncTowardZero, if_neg (not_le.mpr h)]
  rw [neg_nonpos]
  exact Int.le_floor.mpr (by push_cast; linarith)

theorem rustCastU8_le_127 (q : ℚ) (h : q ≤ 127) : rustCastU8 q ≤ 127 := by
  rw [rustCastU8, Int.toNat_le]
  rcases le_or_lt 0 q with hq | hq
  · refine le_trans (min_le_right _ _) ?_
    rw [truncTowardZero_of_nonneg q hq]
    calc ⌊q⌋ ≤ ⌊(127 : ℚ)⌋ := Int.floor_mono h
      _ = 127 := by norm_num
  · refine le_trans (min_le_right _ _) ?_
    exact le_trans (truncTowardZero_nonpos q hq) (by norm_num)

theorem rustCastU8_eq_floor (q : ℚ) (h0 : 0 ≤ q) (h1 : q ≤ 127) :
    rustCastU8 q = (⌊q⌋).toNat := by
  rw [rustCastU8, truncTowardZero_of_nonneg q h0]
  congr 1
  refine min_eq_right ?_
  calc ⌊q⌋ ≤ ⌊(127 : ℚ)⌋ := Int.floor_mono h1
    _ = 127 := by norm_num
    _ ≤ 255 := by norm_num

theorem set_parameter_variance_pos (p : VaryVelocityParameters) (i : ℤ) (v : ℚ)
    (h : 0 < p.variance) : 0 < (set_parameter p i v).variance := by
  rw [set_parameter]
  split
  · exact lt_of_lt_of_le epsilonClamp_pos (le_max_right _ _)
  · split
    · exact h
    · exact h

theorem variance_pos_of_setOp (ops : List SetOp) (p : VaryVelocityParameters)
    (h : 0 < p.variance ∨ ∃ v, SetOp.mk 0 v ∈ ops) :
    0 < (applyOps p ops).variance := by
  induction ops generalizing p with
  | nil =>
      rcases h with hp | ⟨v, hv⟩
      · exact hp
      · cases hv
  | cons op rest ih =>
      rcases h with hp | ⟨v, hv⟩
      · exact ih _ (Or.inl (set_parameter_variance_pos _ _ _ hp))
      · rcases List.mem_cons.mp hv with heq | hmem
        · refine ih _ (Or.inl ?_)
          rw [← heq]
          show 0 < (set_parameter p 0 v).variance
          rw [set_parameter, if_pos rfl]
          exact lt_of_lt_of_le epsilonClamp_pos (le_max_right _ _)
        · exact ih _ (Or.inr ⟨v, hmem⟩)

theorem processEvents_queue (evs : List VstEvent) (st : PluginState)
    (ss : List ℚ) :
    (processEvents st evs ss).immediate_events =
      st.immediate_events ++ transformedEvents st.params evs ss := by
  induction evs generalizing st ss with
  | nil => simp [processEvents, transformedEvents]
  | cons ev rest ih =>
      cases ev with
      | midi e =>
          show (processEvents (addEvent st e (ss.headD 0)) rest ss.tail).immediate_events = _
          rw [ih]
          simp [addEvent, transformedEvents]
      | other =>
          show (processEvents st rest ss).immediate_events = _
          rw [ih]
          simp [transformedEvents]

theorem transformedEvents_length (par : VaryVelocityParameters)
    (evs : List VstEvent) (ss : List ℚ) :
    (transformedEvents par evs ss).length = midiCount evs := by
  induction evs generalizing ss with
  | nil => rfl
  | cons ev rest ih =>
      cases ev with
      | midi e => simp [transformedEvents, midiCount, ih]
      | other => simp [transformedEvents, midiCount, ih]

/-! ## Claim theorems -/

/-- C1 counterexample: with minimum_normalized = 1/2 the claimed floor is
63.5, yet on sample 0 the emitted velocity byte is 63, strictly below the
floor, so the byte does not always lie in the interval [floor, 127]. -/
theorem velocity_below_fractional_floor :
    (addEventTransform (VaryVelocityParameters.mk 1 (1/2)) ev0 0).data2 = 63 ∧
    ((addEventTransform (VaryVelocityParameters.mk 1 (1/2)) ev0 0).data2 : ℚ) <
      (1/2 : ℚ) * MAX_MINIMUM := by
  have h : (addEventTransform (VaryVelocityParameters.mk 1 (1/2)) ev0 0).data2 = 63 := by
    show rustCastU8 (clampedVelocity (VaryVelocityParameters.mk 1 (1/2)) 0) = 63
    norm_num [rustCastU8, clampedVelocity, truncTowardZero, MAX_MINIMUM]
    rfl
  refine ⟨h, ?_⟩
  rw [h]
  norm_num [MAX_MINIMUM]

/-- C1 (amended): for every parameter state with normalized variance in (0,1]
and normalized minimum in [0,1], and every inbound velocity in [0,127] and
every sample, the emitted velocity byte lies in [⌊floor⌋, 127] where floor is
the scaled minimum (minimum_normalized * 127); the byte is obtained by
truncation toward zero of the clamped, non-negative sample. -/
theorem velocity_in_floor_range (par : VaryVelocityParameters) (e : MidiEvent)
    (s : ℚ) (_hv0 : 0 < par.variance) (_hv1 : par.variance ≤ 1)
    (hm0 : 0 ≤ par.minimum) (hm1 : par.minimum ≤ 1) (_hvel : e.data2 ≤ 127) :
    (⌊par.minimum * MAX_MINIMUM⌋).toNat ≤ (addEventTransform par e s).data2 ∧
    (addEventTransform par e s).data2 ≤ 127 ∧
    0 ≤ clampedVelocity par s ∧
    ((addEventTransform par e s).data2 : ℤ) =
      truncTowardZero (clampedVelocity par s) := by
  have hfl0 : 0 ≤ par.minimum * MAX_MINIMUM := by
    refine mul_nonneg hm0 ?_
    norm_num [MAX_MINIMUM]
  have hfl127 : par.minimum * MAX_MINIMUM ≤ 127 := by
    simp only [MAX_MINIMUM]
    linarith
  have hflc : par.minimum * MAX_MINIMUM ≤ clampedVelocity par s := by
    show par.minimum * MAX_MINIMUM ≤ min (max s (par.minimum * MAX_MINIMUM)) 127
    exact le_min (le_max_right _ _) hfl127
  have hc0 : 0 ≤ clampedVelocity par s := le_trans hfl0 hflc
  have hc127 : clampedVelocity par s ≤ 127 := min_le_right _ _
  have hcast : (addEventTransform par e s).data2 = (⌊clampedVelocity par s⌋).toNat :=
    rustCastU8_eq_floor _ hc0 hc127
  refine ⟨?_, ?_, hc0, ?_⟩
  · rw [hcast]
    exact Int.toNat_le_toNat (Int.floor_mono hflc)
  · rw [hcast, Int.toNat_le]
    calc ⌊clampedVelocity par s⌋ ≤ ⌊(127 : ℚ)⌋ := Int.floor_mono hc127
      _ = 127 := by norm_num
  · rw [hcast, truncTowardZero_of_nonneg _ hc0]
    exact Int.toNat_of_nonneg (Int.floor_nonneg.mpr hc0)

/-- Witness for C1 (amended) at variance 1, minimum 1/2, sample 100. -/
theorem velocity_in_floor_range_witness :
    (⌊(1/2 : ℚ) * MAX_MINIMUM⌋).toNat ≤
      (addEventTransform (VaryVelocityParameters.mk 1 (1/2)) ev0 100).data2 ∧
    (addEventTransform (VaryVelocityParameters.mk 1 (1/2)) ev0 100).data2 ≤ 127 ∧
    0 ≤ clampedVelocity (VaryVelocityParameters.mk 1 (1/2)) 100 ∧
    ((addEventTransform (VaryVelocityParameters.mk 1 (1/2)) ev0 100).data2 : ℤ) =
      truncTowardZero (clampedVelocity (VaryVelocityParameters.mk 1 (1/2)) 100) :=
  velocity_in_floor_range (VaryVelocityParameters.mk 1 (1/2)) ev0 100
    (by norm_num) (by norm_num) (by norm_num) (by norm_num) (by norm_num [ev0])

/-- C2 counterexample: the default parameter state is reachable and stores
normalized variance exactly 0, so the invariant does not hold in every
reachable state. -/
theorem default_variance_not_positive :
    Reachable VaryVelocityParameters.defaultParams ∧
    VaryVelocityParameters.defaultParams.variance = 0 :=
  ⟨Reachable.init, rfl⟩

/-- C2 (amended): in every state reached from the default state by a
sequence of set_parameter calls that includes at least one write to index 0,
the stored normalized variance is strictly positive (clamped to epsilon);
the minimum slot has no such floor (it stores the written value raw). In the
default state, before any write to index 0, the stored variance is exactly 0. -/
theorem variance_invariant_after_set (ops : List SetOp)
    (h : ∃ v, SetOp.mk 0 v ∈ ops) :
    0 < (applyOps VaryVelocityParameters.defaultParams ops).variance ∧
    ∀ (p : VaryVelocityParameters) (v : ℚ), (set_parameter p 1 v).minimum = v := by
  refine ⟨variance_pos_of_setOp ops _ (Or.inr h), ?_⟩
  intro p v
  norm_num [set_parameter]

/-- Witness for C2 (amended) on the single call set_parameter(0, 0). -/
theorem variance_invariant_after_set_witness :
    0 < (applyOps VaryVelocityParameters.defaultParams [SetOp.mk 0 0]).variance ∧
    ∀ (p : VaryVelocityParameters) (v : ℚ), (set_parameter p 1 v).minimum = v :=
  variance_invariant_after_set [SetOp.mk 0 0] ⟨0, List.Mem.head _⟩

/-- C3 counterexample: the default state is reachable, its standard
deviation variance_normalized * 25 is 0 (not strictly positive), and the
Gaussian construction (modelled from the spec as failing for non-positive
sigma) fails there. -/
theorem default_sigma_zero_normal_fails :
    Reachable VaryVelocityParameters.defaultParams ∧
    VaryVelocityParameters.defaultParams.variance * MAX_VARIANCE = 0 ∧
    normalNew 100 (VaryVelocityParameters.defaultParams.variance * MAX_VARIANCE) =
      none := by
  refine ⟨Reachable.init, ?_, ?_⟩
  · norm_num [VaryVelocityParameters.defaultParams]
  · norm_num [normalNew, VaryVelocityParameters.defaultParams]

/-- C3 (amended): in every state reached from the default state by a
sequence of set_parameter calls including at least one write to index 0, the
standard deviation variance_normalized * 25 is strictly positive, and the
Gaussian construction succeeds for every mean. -/
theorem sigma_pos_after_set (ops : List SetOp) (m : ℚ)
    (h : ∃ v, SetOp.mk 0 v ∈ ops) :
    0 < (applyOps VaryVelocityParameters.defaultParams ops).variance * MAX_VARIANCE ∧
    (normalNew m
      ((applyOps VaryVelocityParameters.defaultParams ops).variance * MAX_VARIANCE)).isSome
      = true := by
  have hpos :=
    variance_pos_of_setOp ops VaryVelocityParameters.defaultParams (Or.inr h)
  have hs : 0 <
      (applyOps VaryVelocityParameters.defaultParams ops).variance * MAX_VARIANCE := by
    refine mul_pos hpos ?_
    norm_num [MAX_VARIANCE]
  exact ⟨hs, by simp [normalNew, hs]⟩

/-- Witness for C3 (amended) on the single call set_parameter(0, 0), mean 100. -/
theorem sigma_pos_after_set_witness :
    0 < (applyOps VaryVelocityParameters.defaultParams [SetOp.mk 0 0]).variance *
      MAX_VARIANCE ∧
    (normalNew 100
      ((applyOps VaryVelocityParameters.defaultParams [SetOp.mk 0 0]).variance *
        MAX_VARIANCE)).isSome = true :=
  sigma_pos_after_set [SetOp.mk 0 0] 100 ⟨0, List.Mem.head _⟩

/-- C4: the source's get_parameter_text reads the variance cell for BOTH
indices: for index 1 it renders variance_normalized * 25 (with the default
format, not one decimal place) instead of the scaled minimum
minimum_normalized * 127. At the state variance_normalized = 1,
minimum_normalized = 0, index 1 renders the value 25 while the scaled
minimum is 0. -/
theorem display_text_index1_reads_variance :
    (∀ p : VaryVelocityParameters,
      get_parameter_text p 1 = DisplayText.plain (p.variance * MAX_VARIANCE)) ∧
    get_parameter_text (VaryVelocityParameters.mk 1 0) 1 =
      DisplayText.plain 25 ∧
    (0 : ℚ) * MAX_MINIMUM ≠ 25 := by
  refine ⟨?_, ?_, ?_⟩
  · intro p
    norm_num [get_parameter_text]
  · norm_num [get_parameter_text, MAX_VARIANCE]
  · norm_num [MAX_MINIMUM]

/-- C5: one cycle starting with an empty pending queue, given any inbound
batch and any sample stream: the single flush hands the host exactly the
transformed MIDI events, one per inbound MIDI event (so K in, K out), in
arrival order; non-MIDI events are not re-emitted; and the pending queue is
empty after the flush. -/
theorem cycle_flush_exact (par : VaryVelocityParameters) (evs : List VstEvent)
    (ss : List ℚ) :
    (sendMidi (processEvents (PluginState.mk par []) evs ss)).1 =
      transformedEvents par evs ss ∧
    (sendMidi (processEvents (PluginState.mk par []) evs ss)).1.length =
      midiCount evs ∧
    (sendMidi (processEvents (PluginState.mk par []) evs ss)).2.immediate_events
      = [] := by
  have hq : (processEvents (PluginState.mk par []) evs ss).immediate_events =
      transformedEvents par evs ss := by
    rw [processEvents_queue]
    simp
  refine ⟨hq, ?_, rfl⟩
  rw [show (sendMidi (processEvents (PluginState.mk par []) evs ss)).1 =
      (processEvents (PluginState.mk par []) evs ss).immediate_events from rfl,
    hq, transformedEvents_length]

/-- C6: the transformation of add_event copies every field of the inbound
event other than the velocity byte: status/channel byte, note-number byte,
and all cycle-relative timing/metadata fields are unchanged. -/
theorem addEvent_frame (par : VaryVelocityParameters) (e : MidiEvent) (s : ℚ) :
    (addEventTransform par e s).data0 = e.data0 ∧
    (addEventTransform par e s).data1 = e.data1 ∧
    (addEventTransform par e s).deltaFrames = e.deltaFrames ∧
    (addEventTransform par e s).live = e.live ∧
    (addEventTransform par e s).noteLength = e.noteLength ∧
    (addEventTransform par e s).noteOffset = e.noteOffset ∧
    (addEventTransform par e s).detune = e.detune ∧
    (addEventTransform par e s).noteOffVelocity = e.noteOffVelocity :=
  ⟨rfl, rfl, rfl, rfl, rfl, rfl, rfl, rfl⟩

theorem copyChannel_eq (inp outp : List ℚ) (h : inp.length = outp.length) :
    copyChannel inp outp = inp := by
  rw [copyChannel, List.map_fst_zip _ _ (le_of_eq h), h, List.drop_length,
    List.append_nil]

/-- C7: the audio path is the identity: whenever the input and output
buffers have the same shape (same channel count, channel-wise equal sample
counts), processing copies every input sample to the corresponding output
sample, so the resulting output buffer equals the input buffer. -/
theorem audio_passthrough (inp outp : List (List ℚ))
    (h : List.Forall₂ (fun a b => a.length = b.length) inp outp) :
    processAudio inp outp = inp := by
  induction h with
  | nil => rfl
  | @cons a b l1 l2 hab htail ih =>
      simp only [processAudio, List.zip_cons_cons, List.map_cons,
        List.length_cons, List.drop_succ_cons, List.cons_append] at ih ⊢
      rw [copyChannel_eq a b hab, ih]

/-- Witness for C7 on a concrete 2-channel buffer. -/
theorem audio_passthrough_witness :
    processAudio [[(1 : ℚ), 2], [3]] [[5, 6], [7]] = [[(1 : ℚ), 2], [3]] :=
  audio_passthrough [[(1 : ℚ), 2], [3]] [[5, 6], [7]]
    (List.Forall₂.cons rfl (List.Forall₂.cons rfl List.Forall₂.nil))

/-- C8: for every parameter index other than 0 and 1, get_parameter returns
0.0, set_parameter is a no-op on the stored state, and both display_name and
display_text render the empty string. -/
theorem unknown_index_contract (p : VaryVelocityParameters) (v : ℚ) (i : ℤ)
    (h0 : i ≠ 0) (h1 : i ≠ 1) :
    get_parameter p i = 0 ∧ set_parameter p i v = p ∧
    get_parameter_name i = "" ∧ get_parameter_text p i = DisplayText.empty := by
  refine ⟨?_, ?_, ?_, ?_⟩ <;>
    simp [get_parameter, set_parameter, get_parameter_name, get_parameter_text,
      h0, h1]

/-- Witness for C8 at index 5. -/
theorem unknown_index_contract_witness :
    get_parameter VaryVelocityParameters.defaultParams 5 = 0 ∧
    set_parameter VaryVelocityParameters.defaultParams 5 7 =
      VaryVelocityParameters.defaultParams ∧
    get_parameter_name 5 = "" ∧
    get_parameter_text VaryVelocityParameters.defaultParams 5 =
      DisplayText.empty :=
  unknown_index_contract VaryVelocityParameters.defaultParams 7 5
    (by norm_num) (by norm_num)

/-- C9: for every value v, setting index 0 then reading it back yields
max(v, epsilon) with epsilon = 1e-10 — in particular the read-back variance
is always strictly positive, so writing 0 reads back as the positive
epsilon — while for index 1 the set-then-get round-trip returns v unchanged. -/
theorem set_get_roundtrip (p : VaryVelocityParameters) (v : ℚ) :
    get_parameter (set_parameter p 0 v) 0 = max v epsilonClamp ∧
    0 < get_parameter (set_parameter p 0 v) 0 ∧
    get_parameter (set_parameter p 1 v) 1 = v := by
  have h1 : get_parameter (set_parameter p 0 v) 0 = max v epsilonClamp := by
    norm_num [get_parameter, set_parameter]
  have h3 : get_parameter (set_parameter p 1 v) 1 = v := by
    norm_num [get_parameter, set_parameter]
  refine ⟨h1, ?_, h3⟩
  rw [h1]
  exact lt_of_lt_of_le epsilonClamp_pos (le_max_right _ _)

/-- C10: for every parameter state (the stored minimum may lie outside
[0,1]) and every sample, the emitted velocity byte is at most 127 — the
clamp applies the max with the floor before the min with 127 — and whenever
the clamped value is negative the saturating cast maps it to 0, so the byte
always lies in [0, 127]. -/
theorem velocity_byte_saturates (par : VaryVelocityParameters) (e : MidiEvent)
    (s : ℚ) :
    (addEventTransform par e s).data2 ≤ 127 ∧
    (clampedVelocity par s < 0 → (addEventTransform par e s).data2 = 0) := by
  constructor
  · exact rustCastU8_le_127 _ (min_le_right _ _)
  · intro hneg
    show rustCastU8 (clampedVelocity par s) = 0
    rw [rustCastU8, Int.toNat_eq_zero]
    exact le_trans (min_le_right _ _) (truncTowardZero_nonpos _ hneg)

/-- Witness for C10 at minimum = -2 (scaled floor -254) and sample -300:
the emitted byte is 0 and at most 127. -/
theorem velocity_byte_saturates_witness :
    (addEventTransform (VaryVelocityParameters.mk 1 (-2)) ev0 (-300)).data2 ≤ 127 ∧
    (addEventTransform (VaryVelocityParameters.mk 1 (-2)) ev0 (-300)).data2 = 0 :=
  ⟨(velocity_byte_saturates (VaryVelocityParameters.mk 1 (-2)) ev0 (-300)).1,
   (velocity_byte_saturates (VaryVelocityParameters.mk 1 (-2)) ev0 (-300)).2
     (by norm_num [clampedVelocity, MAX_MINIMUM])⟩

end VaryVelocity
